import Mathlib

/-!
Shallow embedding of the core rendering pipeline of a Rust ray tracer
(files src/raytracer.rs and src/textures.rs), together with theorems
checking the natural-language specification against it.

Modelling conventions:
* Rust f32 values are modelled by real numbers.  The one place where a
  non-real f32 value (NaN or an infinity) can be produced by the code
  under consideration is the per-pixel division by the sample count;
  there the result of the division is modelled by an Option on the reals,
  with none standing for the non-real IEEE result.
* The f32 value INFINITY passed as an upper ray-parameter bound is
  modelled by the top element of EReal.
* Rust u16 values are modelled by natural numbers; where u16 overflow
  matters it is made explicit (see u16_mul_debug).
* External collaborators whose source is not part of the core (camera,
  materials, the scene container's intersection routine, the bounding
  volume hierarchy search) are modelled by their interfaces: plain
  function fields, exactly as the core consumes them.
-/

/-- A 3-component vector of f32 components, modelled over the reals. -/
structure Vec3 where
  x : ℝ
  y : ℝ
  z : ℝ

/-- An RGB color in linear light space, componentwise over the reals. -/
structure Color where
  r : ℝ
  g : ℝ
  b : ℝ

/-- Componentwise addition of colors. -/
instance : Add Color := ⟨fun a c => ⟨a.r + c.r, a.g + c.g, a.b + c.b⟩⟩

/-- Componentwise multiplication of colors (attenuation). -/
instance : Mul Color := ⟨fun a c => ⟨a.r * c.r, a.g * c.g, a.b * c.b⟩⟩

/-- Scalar multiplication of a color by a real factor. -/
instance : HMul ℝ Color Color := ⟨fun s c => ⟨s * c.r, s * c.g, s * c.b⟩⟩

/-- The zero color, written color![0., 0., 0.] in the source. -/
def Color.black : Color := ⟨0, 0, 0⟩

noncomputable section

/-- Modelled from the spec: a Vector supports normalization to unit
length (the vec3 module is an external collaborator); the normalized
vector is the vector divided by its Euclidean length. -/
def Vec3.length (v : Vec3) : ℝ := Real.sqrt (v.x ^ 2 + v.y ^ 2 + v.z ^ 2)

/-- Modelled from the spec: unit_vector divides a vector by its length. -/
def Vec3.unit_vector (v : Vec3) : Vec3 :=
  ⟨v.x / v.length, v.y / v.length, v.z / v.length⟩

/-- A ray: origin point plus direction vector, immutable once built. -/
structure Ray where
  origin : Vec3
  direction : Vec3

/-- A hit record: hit point, surface normal, surface coordinates and ray
parameter, as produced by an intersection query.  The material struck is
carried alongside (see Hit) rather than inside the record, to keep the
material's scatter signature well-founded. -/
structure HitRecord where
  p : Vec3
  normal : Vec3
  u : ℝ
  v : ℝ
  t : ℝ

/-- A material, modelled by its interface: scatter takes the incoming ray
and the hit record and returns either a scattered ray together with an
attenuation color, or nothing (absorption). -/
def Material := Ray → HitRecord → Option (Ray × Color)

/-- The value returned by a successful intersection query: the geometric
hit record plus the material struck (hit.material() in the source). -/
structure Hit where
  record : HitRecord
  material : Material

/-- The scene container, modelled by the interface the core consumes: a
nearest-intersection query over a ray and a parameter interval.  The
lower bound is a real and the upper bound an extended real, since the
core passes f32 INFINITY there. -/
structure HittableList where
  hit : Ray → ℝ → EReal → Option Hit

/-- Rust Clone on the scene container: it yields an equal, independently
owned value, which on pure values is the identity. -/
def HittableList.clone (l : HittableList) : HittableList := l

/-- The bounding volume hierarchy, modelled by the interface the core
consumes: its nearest-intersection query. -/
structure Bvh where
  hit : Ray → ℝ → EReal → Option Hit

/-- Marker error returned when the hierarchy cannot be built because some
object has no finite bounding box. -/
structure BoundingBoxError where

/-- The world seen by the shading recursion: either a successfully built
hierarchy or a reference to the raw scene list (the fallback). -/
inductive HittableListOptions where
  | hittableList (world : HittableList)
  | bvh (world : Bvh)

/-- The nearest-intersection query of whichever world variant is active. -/
def world_hit (w : HittableListOptions) : Ray → ℝ → EReal → Option Hit :=
  match w with
  | .hittableList world => world.hit
  | .bvh world => world.hit

/-- The camera, modelled by the interface the core consumes: an optional
shutter time interval and a ray for given image-plane parameters. -/
structure Camera where
  get_ray : ℝ → ℝ → Ray
  time : Option (ℝ × ℝ)

/-- Central ray tracing struct (fields as in the source; u16 sizes are
modelled by naturals). -/
structure Raytracer where
  world : HittableList
  camera : Camera
  image_width : ℕ
  image_height : ℕ
  samples_per_pixel : ℕ
  max_depth : ℕ

/-- The sky gradient computed on a miss: interpolate between white and
sky blue by t = 0.5 * (unit_y + 1). -/
def sky_color (direction : Vec3) : Color :=
  let unit_direction := direction.unit_vector
  let t := 0.5 * (unit_direction.y + 1.0)
  (1.0 - t) * (⟨1, 1, 1⟩ : Color) + t * (⟨0.5, 0.7, 1.0⟩ : Color)

/-- Colors the ray according to hits when the world is a Bvh
(Raytracer::ray_color_bvh in the source). -/
def ray_color_bvh (world : Bvh) : Ray → ℕ → Color
  | _, 0 => ⟨0, 0, 0⟩
  | ray, depth + 1 =>
    match world.hit ray 0.001 ⊤ with
    | some hit =>
      match hit.material ray hit.record with
      | some (scattered, attenuation) =>
        attenuation * ray_color_bvh world scattered depth
      | none => ⟨0, 0, 0⟩
    | none =>
      let unit_direction := ray.direction.unit_vector
      let t := 0.5 * (unit_direction.y + 1.0)
      (1.0 - t) * (⟨1, 1, 1⟩ : Color) + t * (⟨0.5, 0.7, 1.0⟩ : Color)

/-- Colors the ray according to hits when the world is the raw scene
list (Raytracer::ray_color_hittable in the source). -/
def ray_color_hittable (world : HittableList) : Ray → ℕ → Color
  | _, 0 => ⟨0, 0, 0⟩
  | ray, depth + 1 =>
    match world.hit ray 0.001 ⊤ with
    | some hit =>
      match hit.material ray hit.record with
      | some (scattered, attenuation) =>
        attenuation * ray_color_hittable world scattered depth
      | none => ⟨0, 0, 0⟩
    | none =>
      let unit_direction := ray.direction.unit_vector
      let t := 0.5 * (unit_direction.y + 1.0)
      (1.0 - t) * (⟨1, 1, 1⟩ : Color) + t * (⟨0.5, 0.7, 1.0⟩ : Color)

/-- Colors the ray according to hits, choosing the implementation from
the world variant (Raytracer::ray_color in the source). -/
def ray_color (world : HittableListOptions) (ray : Ray) (depth : ℕ) : Color :=
  match world with
  | .hittableList world => ray_color_hittable world ray depth
  | .bvh world => ray_color_bvh world ray depth

/-- An event observable during one shading recursion: an intersection
query against the world with its interval bounds, or a scatter query
against the material of a hit. -/
inductive TraceEvent where
  | worldQuery (ray : Ray) (t_min : ℝ) (t_max : EReal)
  | scatterQuery (ray : Ray) (record : HitRecord)

/-- Does a trace event satisfy the bound discipline: every world query
uses the shadow-acne epsilon 0.001 as lower bound and positive infinity
as upper bound. -/
def event_bounds_ok (e : TraceEvent) : Prop :=
  match e with
  | .worldQuery _ t_min t_max => t_min = 0.001 ∧ t_max = ⊤
  | .scatterQuery _ _ => True

/-- ray_color_bvh instrumented to also return, in order, every world
query and every material scatter query it issues. -/
def ray_color_bvh_trace (world : Bvh) : Ray → ℕ → Color × List TraceEvent
  | _, 0 => (⟨0, 0, 0⟩, [])
  | ray, depth + 1 =>
    match world.hit ray 0.001 ⊤ with
    | some hit =>
      match hit.material ray hit.record with
      | some (scattered, attenuation) =>
        let rest := ray_color_bvh_trace world scattered depth
        (attenuation * rest.1,
          TraceEvent.worldQuery ray 0.001 ⊤ ::
            TraceEvent.scatterQuery ray hit.record :: rest.2)
      | none =>
        (⟨0, 0, 0⟩,
          [TraceEvent.worldQuery ray 0.001 ⊤,
            TraceEvent.scatterQuery ray hit.record])
    | none => (sky_color ray.direction, [TraceEvent.worldQuery ray 0.001 ⊤])

/-- ray_color_hittable instrumented to also return, in order, every world
query and every material scatter query it issues. -/
def ray_color_hittable_trace (world : HittableList) :
    Ray → ℕ → Color × List TraceEvent
  | _, 0 => (⟨0, 0, 0⟩, [])
  | ray, depth + 1 =>
    match world.hit ray 0.001 ⊤ with
    | some hit =>
      match hit.material ray hit.record with
      | some (scattered, attenuation) =>
        let rest := ray_color_hittable_trace world scattered depth
        (attenuation * rest.1,
          TraceEvent.worldQuery ray 0.001 ⊤ ::
            TraceEvent.scatterQuery ray hit.record :: rest.2)
      | none =>
        (⟨0, 0, 0⟩,
          [TraceEvent.worldQuery ray 0.001 ⊤,
            TraceEvent.scatterQuery ray hit.record])
    | none => (sky_color ray.direction, [TraceEvent.worldQuery ray 0.001 ⊤])

/-- ray_color instrumented with the query trace, dispatching on the world
variant like the uninstrumented function. -/
def ray_color_trace (world : HittableListOptions) (ray : Ray) (depth : ℕ) :
    Color × List TraceEvent :=
  match world with
  | .hittableList world => ray_color_hittable_trace world ray depth
  | .bvh world => ray_color_bvh_trace world ray depth

/-- Models f32 division as performed by the per-pixel post-processing:
dividing by zero yields a value that is not a real number (NaN for 0/0,
an infinity otherwise), modelled by none. -/
def fdiv (x y : ℝ) : Option ℝ := if y = 0 then none else some (x / y)

/-- A pixel after post-processing: each channel is a real number, or none
when the f32 computation produced a non-real value. -/
structure PixelColor where
  r : Option ℝ
  g : Option ℝ
  b : Option ℝ

/-- Per-pixel post-processing (raytracer.rs lines 154-158): divide each
accumulated channel by the sample count, then take the componentwise
square root. -/
def post_process (pixel_color : Color) (samples_per_pixel : ℕ) : PixelColor :=
  ⟨(fdiv pixel_color.r samples_per_pixel).map Real.sqrt,
    (fdiv pixel_color.g samples_per_pixel).map Real.sqrt,
    (fdiv pixel_color.b samples_per_pixel).map Real.sqrt⟩

/-- The per-pixel body shared by the two sampling loops (raytracer.rs
lines 141-164 and 177-203), abstracted over the shade function the loop
applies (ray_color with the selected world, or ray_color_hittable with
the raw list).  The random jitter stream of the pixel's thread-local rng
is passed explicitly as a sample-indexed sequence of offset pairs; u16
subtraction in the viewport divisors is modelled by truncated natural
subtraction. -/
def sample_pixel (shade : Ray → ℕ → Color) (camera : Camera)
    (image_width image_height samples_per_pixel max_depth : ℕ)
    (rng : ℕ → ℝ × ℝ) (index : ℕ) : PixelColor :=
  let i := index % image_width
  let j := image_height - index / image_width - 1
  let pixel_color := (List.range samples_per_pixel).foldl
    (fun acc s =>
      let u := ((i : ℝ) + (rng s).1) / ((image_width - 1 : ℕ) : ℝ)
      let v := ((j : ℝ) + (rng s).2) / ((image_height - 1 : ℕ) : ℝ)
      acc + shade (camera.get_ray u v) max_depth)
    ⟨0, 0, 0⟩
  post_process pixel_color samples_per_pixel

/-- The attempt to build the hierarchy at the start of
render_multithreaded_bvh (raytracer.rs lines 126-129): the external
constructor is applied to a clone of the scene container and the camera
shutter interval (or a degenerate zero interval).  The constructor itself
lives outside the core and is passed as a function. -/
def bvh_attempt (build : HittableList → ℝ → ℝ → Except BoundingBoxError Bvh)
    (self : Raytracer) : Except BoundingBoxError Bvh :=
  match self.camera.time with
  | some time => build self.world.clone time.1 time.2
  | none => build self.world.clone 0 0

/-- Raytracer::render_multithreaded_bvh: attempt the hierarchy build,
select the world variant (fallback to the raw list on error), then map
every pixel index through the sampling loop with Raytracer::ray_color.
Translated in state-passing style: the result carries the method's output
list together with the final state of the receiver, whose fields the
method body never assigns. -/
def Raytracer.render_multithreaded_bvh
    (build : HittableList → ℝ → ℝ → Except BoundingBoxError Bvh)
    (rng : ℕ → ℕ → ℝ × ℝ) (self : Raytracer) :
    List PixelColor × Raytracer :=
  let bvh := bvh_attempt build self
  let world := match bvh with
    | .ok bvh => HittableListOptions.bvh bvh
    | .error _ => HittableListOptions.hittableList self.world
  let colors := (List.range (self.image_height * self.image_width)).map
    (fun index =>
      sample_pixel (ray_color world) self.camera self.image_width
        self.image_height self.samples_per_pixel self.max_depth
        (rng index) index)
  (colors, ⟨self.world, self.camera, self.image_width, self.image_height,
    self.samples_per_pixel, self.max_depth⟩)

/-- Raytracer::render_multithreaded_without_bvh: the same sampling loop,
shading every ray with ray_color_hittable against the raw scene list. -/
def Raytracer.render_multithreaded_without_bvh
    (rng : ℕ → ℕ → ℝ × ℝ) (self : Raytracer) :
    List PixelColor × Raytracer :=
  let colors := (List.range (self.image_height * self.image_width)).map
    (fun index =>
      sample_pixel (ray_color_hittable self.world) self.camera
        self.image_width self.image_height self.samples_per_pixel
        self.max_depth (rng index) index)
  (colors, ⟨self.world, self.camera, self.image_width, self.image_height,
    self.samples_per_pixel, self.max_depth⟩)

end

/-- Models Rust u16 multiplication as executed in a debug build: the
mathematical product when it fits in u16, and none (an overflow panic)
otherwise. -/
def u16_mul_debug (a b : ℕ) : Option ℕ :=
  if a * b ≤ 65535 then some (a * b) else none

/-- The progress-bar length computed by Raytracer::render_ppm (line 59):
the product image_height * image_width is taken in u16 arithmetic before
the infallible widening conversion. -/
def render_ppm_bar_len (self : Raytracer) : Option ℕ :=
  u16_mul_debug self.image_height self.image_width

/-- The progress-bar length computed by Raytracer::render (line 79): both
factors are widened to u64 first, so the product of two u16 values never
overflows. -/
def render_bar_len (self : Raytracer) : ℕ :=
  self.image_height * self.image_width

/-- A texture, modelled by the interface of the Texture trait: a color
for surface coordinates u, v and the 3D hit point. -/
def Texture := ℝ → ℝ → Vec3 → Color

/-- SolidColor::color_at: ignores all inputs and returns the fixed
color. -/
def SolidColor.color_at (color : Color) : Texture :=
  fun _ _ _ => color

/-- A checkerboard texture delegating to one of two sub-textures. -/
structure CheckerTexture where
  texture_even : Texture
  texture_odd : Texture

/-- The sign criterion of the checker: the product of the sines of ten
times each world coordinate of the hit point.  It takes no surface
coordinates at all. -/
noncomputable def sin_product (hit_point : Vec3) : ℝ :=
  Real.sin (10 * hit_point.x) * Real.sin (10 * hit_point.y) *
    Real.sin (10 * hit_point.z)

/-- CheckerTexture::color_at (textures.rs lines 54-62): delegate to the
odd sub-texture when the sine product is negative and to the even one
otherwise, passing u, v and the hit point through unchanged. -/
noncomputable def CheckerTexture.color_at (self : CheckerTexture)
    (u v : ℝ) (hit_point : Vec3) : Color :=
  let sp := sin_product hit_point
  if sp < 0 then self.texture_odd u v hit_point
  else self.texture_even u v hit_point

noncomputable section

/-- The instrumented Bvh recursion computes the same color as the plain
one. -/
theorem ray_color_bvh_trace_fst (world : Bvh) (ray : Ray) (depth : ℕ) :
    (ray_color_bvh_trace world ray depth).1 = ray_color_bvh world ray depth := by
  induction depth generalizing ray with
  | zero => rfl
  | succ d ih =>
    simp only [ray_color_bvh_trace, ray_color_bvh]
    cases h : world.hit ray 0.001 ⊤ with
    | none => rfl
    | some hit =>
      cases hm : hit.material ray hit.record with
      | none => simp only [hm]
      | some pair =>
        obtain ⟨scattered, attenuation⟩ := pair
        simp only [hm, ih]

/-- The instrumented linear-scan recursion computes the same color as the
plain one. -/
theorem ray_color_hittable_trace_fst (world : HittableList) (ray : Ray)
    (depth : ℕ) :
    (ray_color_hittable_trace world ray depth).1 =
      ray_color_hittable world ray depth := by
  induction depth generalizing ray with
  | zero => rfl
  | succ d ih =>
    simp only [ray_color_hittable_trace, ray_color_hittable]
    cases h : world.hit ray 0.001 ⊤ with
    | none => rfl
    | some hit =>
      cases hm : hit.material ray hit.record with
      | none => simp only [hm]
      | some pair =>
        obtain ⟨scattered, attenuation⟩ := pair
        simp only [hm, ih]

/-- Every event traced by the Bvh recursion satisfies the bound
discipline. -/
theorem ray_color_bvh_trace_bounds (world : Bvh) (ray : Ray) (depth : ℕ) :
    List.Forall event_bounds_ok (ray_color_bvh_trace world ray depth).2 := by
  induction depth generalizing ray with
  | zero => trivial
  | succ d ih =>
    simp only [ray_color_bvh_trace]
    cases h : world.hit ray 0.001 ⊤ with
    | none => simp [List.forall_cons, event_bounds_ok]
    | some hit =>
      cases hm : hit.material ray hit.record with
      | none => simp [hm, List.forall_cons, event_bounds_ok]
      | some pair =>
        obtain ⟨scattered, attenuation⟩ := pair
        simp only [hm, List.forall_cons]
        exact ⟨⟨rfl, rfl⟩, trivial, ih scattered⟩

/-- Every event traced by the linear-scan recursion satisfies the bound
discipline. -/
theorem ray_color_hittable_trace_bounds (world : HittableList) (ray : Ray)
    (depth : ℕ) :
    List.Forall event_bounds_ok
      (ray_color_hittable_trace world ray depth).2 := by
  induction depth generalizing ray with
  | zero => trivial
  | succ d ih =>
    simp only [ray_color_hittable_trace]
    cases h : world.hit ray 0.001 ⊤ with
    | none => simp [List.forall_cons, event_bounds_ok]
    | some hit =>
      cases hm : hit.material ray hit.record with
      | none => simp [hm, List.forall_cons, event_bounds_ok]
      | some pair =>
        obtain ⟨scattered, attenuation⟩ := pair
        simp only [hm, List.forall_cons]
        exact ⟨⟨rfl, rfl⟩, trivial, ih scattered⟩

/-- C4: the shading recursion called with depth 0 returns exactly black,
for every ray and every world variant, and its query trace is empty: no
world intersection query and no material query is issued. -/
theorem depth_zero_returns_black_without_queries
    (world : HittableListOptions) (ray : Ray) :
    ray_color world ray 0 = Color.black ∧
    (ray_color_trace world ray 0).1 = Color.black ∧
    (ray_color_trace world ray 0).2 = [] := by
  cases world <;> exact ⟨rfl, rfl, rfl⟩

/-- C7: the instrumented recursion computes the same color as the plain
one on both world variants, and every intersection query it ever issues
uses exactly the lower bound 0.001 and the upper bound positive infinity,
for every ray and every depth. -/
theorem world_queries_use_epsilon_and_infinity
    (world : HittableListOptions) (ray : Ray) (depth : ℕ) :
    (ray_color_trace world ray depth).1 = ray_color world ray depth ∧
    List.Forall event_bounds_ok (ray_color_trace world ray depth).2 := by
  cases world with
  | hittableList w =>
    exact ⟨ray_color_hittable_trace_fst w ray depth,
      ray_color_hittable_trace_bounds w ray depth⟩
  | bvh w =>
    exact ⟨ray_color_bvh_trace_fst w ray depth,
      ray_color_bvh_trace_bounds w ray depth⟩

/-- C3: when the world query reports a hit, the recursion at positive
depth multiplies the attenuation onto the recursive color of the
scattered ray if the material scatters, and returns black if the material
absorbs, for every world variant, ray and depth. -/
theorem scatter_recursion_step (world : HittableListOptions) (ray : Ray)
    (depth : ℕ) (hit : Hit)
    (hhit : world_hit world ray 0.001 ⊤ = some hit) :
    (∀ scattered attenuation,
        hit.material ray hit.record = some (scattered, attenuation) →
        ray_color world ray (depth + 1) =
          attenuation * ray_color world scattered depth) ∧
    (hit.material ray hit.record = none →
        ray_color world ray (depth + 1) = Color.black) := by
  cases world with
  | hittableList w =>
    simp only [world_hit] at hhit
    refine ⟨fun scattered attenuation hm => ?_, fun hm => ?_⟩ <;>
      simp [ray_color, ray_color_hittable, hhit, hm, Color.black]
  | bvh w =>
    simp only [world_hit] at hhit
    refine ⟨fun scattered attenuation hm => ?_, fun hm => ?_⟩ <;>
      simp [ray_color, ray_color_bvh, hhit, hm, Color.black]

/-- C5: a ray whose world query reports no hit is colored with the sky
gradient determined by its normalized direction, and any two missing
rays with the same normalized direction receive the same color. -/
theorem miss_returns_sky_gradient :
    (∀ (world : HittableListOptions) (ray : Ray) (depth : ℕ),
        world_hit world ray 0.001 ⊤ = none →
        ray_color world ray (depth + 1) = sky_color ray.direction) ∧
    (∀ (world : HittableListOptions) (r1 r2 : Ray) (depth : ℕ),
        r1.direction.unit_vector = r2.direction.unit_vector →
        world_hit world r1 0.001 ⊤ = none →
        world_hit world r2 0.001 ⊤ = none →
        ray_color world r1 (depth + 1) = ray_color world r2 (depth + 1)) := by
  have part1 : ∀ (world : HittableListOptions) (ray : Ray) (depth : ℕ),
      world_hit world ray 0.001 ⊤ = none →
      ray_color world ray (depth + 1) = sky_color ray.direction := by
    intro world ray depth hmiss
    cases world with
    | hittableList w =>
      simp only [world_hit] at hmiss
      simp [ray_color, ray_color_hittable, hmiss, sky_color]
    | bvh w =>
      simp only [world_hit] at hmiss
      simp [ray_color, ray_color_bvh, hmiss, sky_color]
  refine ⟨part1, fun world r1 r2 depth hu h1 h2 => ?_⟩
  rw [part1 world r1 depth h1, part1 world r2 depth h2]
  simp only [sky_color]
  rw [hu]

end

noncomputable section

/-- A fixed ray used to instantiate theorems on concrete inputs. -/
def R0 : Ray := ⟨⟨0, 0, 0⟩, ⟨0, 0, 1⟩⟩

/-- A fixed hit record used to instantiate theorems. -/
def HR0 : HitRecord := ⟨⟨0, 0, 0⟩, ⟨0, 1, 0⟩, 0, 0, 1⟩

/-- A hit whose material always scatters the fixed ray with unit
attenuation. -/
def hit_scatter : Hit := ⟨HR0, fun _ _ => some (R0, ⟨1, 1, 1⟩)⟩

/-- A world whose intersection query always reports hit_scatter. -/
def W_hit : HittableListOptions :=
  .hittableList ⟨fun _ _ _ => some hit_scatter⟩

/-- A world whose intersection query always misses. -/
def W_miss : HittableListOptions := .hittableList ⟨fun _ _ _ => none⟩

/-- A camera returning the fixed ray everywhere, with no shutter time. -/
def cam0 : Camera := ⟨fun _ _ => R0, none⟩

/-- The empty scene container: every query misses. -/
def list_empty : HittableList := ⟨fun _ _ _ => none⟩

/-- A one-by-one renderer with zero samples per pixel. -/
def rt_zero : Raytracer := ⟨list_empty, cam0, 1, 1, 0, 1⟩

/-- A renderer with 256 by 256 pixels. -/
def rt_big : Raytracer := ⟨list_empty, cam0, 256, 256, 1, 1⟩

/-- A hierarchy constructor that always fails. -/
def build_fail : HittableList → ℝ → ℝ → Except BoundingBoxError Bvh :=
  fun _ _ _ => .error ⟨⟩

/-- A constant jitter stream. -/
def rng0 : ℕ → ℕ → ℝ × ℝ := fun _ _ => (0, 0)

/-- Witness for scatter_recursion_step at a concrete scattering world. -/
theorem scatter_recursion_step_witness :
    ray_color W_hit R0 1 = (⟨1, 1, 1⟩ : Color) * ray_color W_hit R0 0 :=
  (scatter_recursion_step W_hit R0 0 hit_scatter rfl).1 R0 ⟨1, 1, 1⟩ rfl

/-- Witness for miss_returns_sky_gradient at a concrete missing world. -/
theorem miss_returns_sky_gradient_witness :
    ray_color W_miss R0 1 = sky_color R0.direction :=
  miss_returns_sky_gradient.1 W_miss R0 0 rfl

/-- C6: per-pixel post-processing divides each accumulated channel by the
sample count and then takes the componentwise square root, with no
clamping: for a positive sample count the output channel is exactly the
square root of the quotient, an averaged channel of zero maps to zero and
an averaged channel of one maps to one. -/
theorem post_process_divides_then_sqrt (pixel_color : Color)
    (samples_per_pixel : ℕ) (hs : 0 < samples_per_pixel) :
    post_process pixel_color samples_per_pixel =
      ⟨some (Real.sqrt (pixel_color.r / samples_per_pixel)),
        some (Real.sqrt (pixel_color.g / samples_per_pixel)),
        some (Real.sqrt (pixel_color.b / samples_per_pixel))⟩ ∧
    (pixel_color.r / samples_per_pixel = 0 →
      (post_process pixel_color samples_per_pixel).r = some 0) ∧
    (pixel_color.r / samples_per_pixel = 1 →
      (post_process pixel_color samples_per_pixel).r = some 1) := by
  have hz : (samples_per_pixel : ℝ) ≠ 0 := Nat.cast_ne_zero.mpr hs.ne'
  refine ⟨?_, fun h0 => ?_, fun h1 => ?_⟩
  · simp [post_process, fdiv, hz]
  · simp [post_process, fdiv, hz, h0]
  · simp [post_process, fdiv, hz, h1]

/-- Witness for post_process_divides_then_sqrt: one sample, red channel
averaging to zero. -/
theorem post_process_divides_then_sqrt_witness :
    (post_process ⟨0, 1, 2⟩ 1).r = some 0 :=
  (post_process_divides_then_sqrt ⟨0, 1, 2⟩ 1 (by norm_num)).2.1
    (by norm_num)

/-- C8: the checker texture delegates to the odd sub-texture exactly when
the sine product of the hit point is negative and to the even one
otherwise, passing u, v and the hit point through unchanged; the branch
criterion sin_product is a function of the hit point alone, so the
decision never uses the surface coordinates. -/
theorem checker_texture_delegation (self : CheckerTexture) (u v : ℝ)
    (hit_point : Vec3) :
    self.color_at u v hit_point =
      (if sin_product hit_point < 0 then self.texture_odd u v hit_point
        else self.texture_even u v hit_point) ∧
    (sin_product hit_point < 0 →
      self.color_at u v hit_point = self.texture_odd u v hit_point) ∧
    (0 ≤ sin_product hit_point →
      self.color_at u v hit_point = self.texture_even u v hit_point) := by
  refine ⟨rfl, fun h => ?_, fun h => ?_⟩
  · simp only [CheckerTexture.color_at]
    rw [if_pos h]
  · simp only [CheckerTexture.color_at]
    rw [if_neg (not_lt.mpr h)]

/-- A red solid sub-texture. -/
def tex_even : Texture := SolidColor.color_at ⟨1, 0, 0⟩

/-- A green solid sub-texture. -/
def tex_odd : Texture := SolidColor.color_at ⟨0, 1, 0⟩

/-- A concrete checker over the two solid sub-textures. -/
def checker0 : CheckerTexture := ⟨tex_even, tex_odd⟩

/-- A hit point on the even side of a checker zero-crossing. -/
def pE : Vec3 := ⟨Real.pi / 20, Real.pi / 20, Real.pi / 20⟩

/-- A hit point on the odd side of a checker zero-crossing. -/
def pO : Vec3 := ⟨-(Real.pi / 20), Real.pi / 20, Real.pi / 20⟩

/-- Witness for checker_texture_delegation at points on both sides of a
zero-crossing of the sine product. -/
theorem checker_texture_delegation_witness :
    checker0.color_at 0 0 pO = checker0.texture_odd 0 0 pO ∧
    checker0.color_at 0 0 pE = checker0.texture_even 0 0 pE := by
  have hs : Real.sin (10 * (Real.pi / 20)) = 1 := by
    rw [show (10 : ℝ) * (Real.pi / 20) = Real.pi / 2 by ring]
    exact Real.sin_pi_div_two
  have hE : (0 : ℝ) ≤ sin_product pE := by
    simp only [sin_product, pE, hs]
    norm_num
  have hO : sin_product pO < 0 := by
    simp only [sin_product, pO]
    rw [show (10 : ℝ) * (-(Real.pi / 20)) = -(Real.pi / 2) by ring,
      Real.sin_neg, Real.sin_pi_div_two, hs]
    norm_num
  exact ⟨(checker_texture_delegation checker0 0 0 pO).2.1 hO,
    (checker_texture_delegation checker0 0 0 pE).2.2 hE⟩

/-- C9: a render call leaves every field of the receiver unchanged: the
final state equals the initial state, in particular the scene container
is still the one held before the call, and the cloned container handed to
the hierarchy constructor equals the original. -/
theorem render_leaves_raytracer_unchanged
    (build : HittableList → ℝ → ℝ → Except BoundingBoxError Bvh)
    (rng : ℕ → ℕ → ℝ × ℝ) (self : Raytracer) :
    (self.render_multithreaded_bvh build rng).2 = self ∧
    (self.render_multithreaded_bvh build rng).2.world = self.world ∧
    self.world.clone = self.world := by
  obtain ⟨w, c, iw, ih, s, m⟩ := self
  exact ⟨rfl, rfl, rfl⟩

/-- C10: with u16-ranged width and height, the progress-bar length of
render_ppm is defined exactly when the pixel count fits in u16 and is an
overflow (a debug panic) whenever the pixel count exceeds 65535, while the
length computed by render is the plain product after widening, bounded by
the square of the u16 maximum. -/
theorem render_ppm_bar_u16_overflow (self : Raytracer)
    (hw : self.image_width ≤ 65535) (hh : self.image_height ≤ 65535) :
    ((render_ppm_bar_len self).isSome ↔
      self.image_width * self.image_height ≤ 65535) ∧
    (65535 < self.image_width * self.image_height →
      render_ppm_bar_len self = none) ∧
    render_bar_len self = self.image_height * self.image_width ∧
    render_bar_len self ≤ 65535 * 65535 := by
  have hcomm : self.image_height * self.image_width =
      self.image_width * self.image_height := Nat.mul_comm _ _
  refine ⟨?_, fun hgt => ?_, rfl, ?_⟩
  · unfold render_ppm_bar_len u16_mul_debug
    rw [hcomm]
    split <;> simp_all
  · unfold render_ppm_bar_len u16_mul_debug
    rw [hcomm, if_neg (by omega)]
  · unfold render_bar_len
    exact Nat.mul_le_mul hh hw

/-- Witness for render_ppm_bar_u16_overflow: a 256 by 256 image overflows
the u16 progress-bar product. -/
theorem render_ppm_bar_u16_overflow_witness :
    render_ppm_bar_len rt_big = none :=
  (render_ppm_bar_u16_overflow rt_big (by norm_num [rt_big])
    (by norm_num [rt_big])).2.1 (by norm_num [rt_big])

/-- C1: when the hierarchy build attempt fails, the whole render equals
the render that always uses the linear-scan path: same pixel list and
same final state, with no error surfaced in the result. -/
theorem bvh_build_failure_falls_back_to_linear_scan
    (build : HittableList → ℝ → ℝ → Except BoundingBoxError Bvh)
    (rng : ℕ → ℕ → ℝ × ℝ) (self : Raytracer)
    (herr : bvh_attempt build self = Except.error ⟨⟩) :
    self.render_multithreaded_bvh build rng =
      self.render_multithreaded_without_bvh rng := by
  unfold Raytracer.render_multithreaded_bvh
    Raytracer.render_multithreaded_without_bvh
  rw [herr]
  rfl

/-- Witness for bvh_build_failure_falls_back_to_linear_scan with a
constructor that always fails. -/
theorem bvh_build_failure_falls_back_witness :
    rt_zero.render_multithreaded_bvh build_fail rng0 =
      rt_zero.render_multithreaded_without_bvh rng0 :=
  bvh_build_failure_falls_back_to_linear_scan build_fail rng0 rt_zero rfl

/-- Counterexample to C2 as stated: rendering the one-pixel scene with
zero samples per pixel does not produce a black pixel; the division by
the sample count is executed with divisor zero, so each channel is the
IEEE result of zero divided by zero (NaN, modelled as none), not zero. -/
theorem zero_samples_pixel_not_black_cex :
    (rt_zero.render_multithreaded_bvh build_fail rng0).1 ≠
      [⟨some 0, some 0, some 0⟩] := by
  have heval : (rt_zero.render_multithreaded_bvh build_fail rng0).1 =
      [⟨none, none, none⟩] := by
    simp [Raytracer.render_multithreaded_bvh, rt_zero, build_fail,
      bvh_attempt, sample_pixel, post_process, fdiv, cam0, list_empty,
      List.range_succ]
  rw [heval]
  simp

/-- C2 amended: with zero samples per pixel the sampling loop contributes
nothing, but the division by the sample count is not avoided and there is
no positive-sample precondition: every output channel is the non-real
IEEE result of a division by zero rather than black. -/
theorem zero_samples_division_not_avoided
    (build : HittableList → ℝ → ℝ → Except BoundingBoxError Bvh)
    (rng : ℕ → ℕ → ℝ × ℝ) (self : Raytracer)
    (h : self.samples_per_pixel = 0) :
    (self.render_multithreaded_bvh build rng).1 =
      List.replicate (self.image_height * self.image_width)
        (⟨none, none, none⟩ : PixelColor) := by
  have hpix : ∀ (shade : Ray → ℕ → Color) (c : Camera) (w hgt md : ℕ)
      (r : ℕ → ℝ × ℝ) (i : ℕ),
      sample_pixel shade c w hgt 0 md r i = ⟨none, none, none⟩ := by
    intro shade c w hgt md r i
    simp [sample_pixel, post_process, fdiv]
  unfold Raytracer.render_multithreaded_bvh
  simp only [h, hpix]
  rw [List.map_const', List.length_range]

/-- Witness for zero_samples_division_not_avoided on the concrete
one-pixel zero-sample renderer. -/
theorem zero_samples_division_not_avoided_witness :
    (rt_zero.render_multithreaded_bvh build_fail rng0).1 =
      List.replicate (rt_zero.image_height * rt_zero.image_width)
        (⟨none, none, none⟩ : PixelColor) :=
  zero_samples_division_not_avoided build_fail rng0 rt_zero rfl

end
